import Mathlib

/-!
Shallow embedding of the authentication/authorization core of the `apipy`
service (files `app/auth.py`, `app/errors.py`, `app/routers/login.py`,
`app/routers/users.py`, `app/routers/resources.py`).

Modelling conventions:
* Python strings and bytes are both modelled as Lean `String`; `.encode("utf-8")`
  is the identity under this identification.  The Python builtin `str` applied
  to a `bytes` value, which yields the textual repr (the quoted literal with a
  leading b), is modelled explicitly by `pyStrOfBytes`.
* The `bcrypt` library is modelled symbolically: `bcrypt.gensalt()` becomes an
  explicit salt argument, `bcrypt.hashpw` produces a modular-crypt-format string
  `$2b$12$<salt><digest>`, and `bcrypt.checkpw` raises `ValueError("Invalid salt")`
  when the stored hash does not carry the `$2b$12$` header, exactly as the real
  library rejects a hash whose salt section cannot be parsed.  The digest is a
  concrete deterministic stand-in; no theorem depends on its internal structure,
  only on its determinism.
* The `jwt` library is modelled symbolically (Dolev-Yao style): an encoded token
  records its payload, the signing key and the algorithm; `jwt.decode` succeeds
  exactly when the supplied key and accepted algorithms match and the `exp`
  claim, when present, lies in the future.
* Exceptions become `Except`: `HTTPException` for FastAPI exceptions, `PyError`
  for library exceptions (`ValueError`) that the code lets escape.
* Wall-clock time (`datetime.now`) is an explicit `now : Int` argument, in
  seconds; `timedelta` values are `Int` seconds.
* The user lookup of the database session is a function
  `String → Except Unit (Option User)`: `.error` models a transport/storage
  failure raised by SQLAlchemy, `.ok none` models "no row".
-/

namespace Apipy

/-- A Python library exception that the embedded code can let escape. -/
inductive PyError where
  | valueError (msg : String)
deriving DecidableEq, Repr

/-- The characters of the bcrypt modular-crypt header `$2b$12$` that
`bcrypt.gensalt()` produces with its default cost of 12. -/
def bcryptHeaderChars : List Char :=
  ['$', '2', 'b', '$', '1', '2', '$']

/-- Concrete deterministic stand-in for the bcrypt digest of a password under a
salt.  Theorems rely only on this being a deterministic function of
`(password, salt)`, never on its internal structure. -/
def bcryptDigest (password salt : String) : String :=
  String.mk (Char.ofNat 35 :: password.data ++ Char.ofNat 35 :: salt.data)

/-- Model of `bcrypt.hashpw(password, salt)`: header, then the salt characters,
then the digest. -/
def bcrypt_hashpw (password salt : String) : String :=
  String.mk (bcryptHeaderChars ++ salt.data ++ (bcryptDigest password salt).data)

/-- Model of `bcrypt.checkpw(password, hashed_password)`: if the stored value
does not parse as a bcrypt hash (here: does not carry the `$2b$12$` header) the
library raises `ValueError("Invalid salt")`; otherwise it recomputes the hash
from the embedded 22-character salt and compares. -/
def bcrypt_checkpw (password hashed : String) : Except PyError Bool :=
  if bcryptHeaderChars.isPrefixOf hashed.data then
    let salt : String := String.mk ((hashed.data.drop bcryptHeaderChars.length).take 22)
    .ok (bcrypt_hashpw password salt == hashed)
  else
    .error (.valueError "Invalid salt")

/-- The Python builtin `str` applied to a `bytes` value: the quoted repr with a
leading b.  The quote character (code 39) is written via `Char.ofNat`. -/
def pyStrOfBytes (b : String) : String :=
  String.mk (Char.ofNat 98 :: Char.ofNat 39 :: b.data ++ [Char.ofNat 39])

/-- `app/auth.py`: the hard-coded module-level signing key used by
`create_access_token`. -/
def SECRET_KEY : String :=
  "09d25e094faa6ca2556c818166b7a9563b93f7099f6f0f4caa6cf63b88e8d3e7"

/-- `app/auth.py`: the module-level signing algorithm. -/
def ALGORITHM : String := "HS256"

/-- `app/auth.py`: `ACCESS_TOKEN_EXPIRE_MINUTES = 30`. -/
def ACCESS_TOKEN_EXPIRE_MINUTES : Int := 30

/-- `app/auth.py` `verify_password`: encodes both arguments to bytes (identity
in this model) and delegates to `bcrypt.checkpw`. -/
def verify_password (plain_password hashed_password : String) : Except PyError Bool :=
  bcrypt_checkpw plain_password hashed_password

/-- `app/auth.py` `get_password_hash`: hashes the password with a fresh salt
(explicit argument here) and returns `str(hashed_password)` — the Python repr
of the hash bytes, not their decoding. -/
def get_password_hash (password salt : String) : String :=
  pyStrOfBytes (bcrypt_hashpw password salt)

/-- The claims dictionary passed to `jwt.encode` (and recovered by
`jwt.decode`). -/
structure JwtPayload where
  sub : Option String := none
  scopes : Option (List String) := none
  exp : Option Int := none
deriving DecidableEq, Repr

/-- A symbolically encoded JWT: the payload together with the signing key and
algorithm that produced it. -/
structure JwtToken where
  payload : JwtPayload
  key : String
  alg : String
deriving DecidableEq, Repr

/-- The failure modes of `jwt.decode` (all subclasses of `InvalidTokenError`). -/
inductive JwtError where
  | invalidAlgorithm
  | invalidSignature
  | expiredSignature
deriving DecidableEq, Repr

/-- Model of `jwt.encode(payload, key, algorithm=alg)`. -/
def jwt_encode (payload : JwtPayload) (key alg : String) : JwtToken :=
  { payload := payload, key := key, alg := alg }

/-- Model of `jwt.decode(token, key, algorithms=algs)` evaluated at time `now`:
the signature verifies exactly when the keys coincide, the algorithm must be
accepted, and an embedded `exp` in the past raises `ExpiredSignatureError`. -/
def jwt_decode (tok : JwtToken) (key : String) (algs : List String) (now : Int) :
    Except JwtError JwtPayload :=
  if tok.alg ∈ algs then
    if tok.key = key then
      match tok.payload.exp with
      | some e => if e ≤ now then .error .expiredSignature else .ok tok.payload
      | none => .ok tok.payload
    else .error .invalidSignature
  else .error .invalidAlgorithm

/-- The `data` dictionary `login_access_token` passes to `create_access_token`. -/
structure TokenClaims where
  sub : Option String := none
  scopes : Option (List String) := none
deriving DecidableEq, Repr

/-- `app/auth.py` `create_access_token`: copies `data` (empty when falsy), sets
`exp` to `now + expires_delta` when `expires_delta` is truthy (a `timedelta` of
zero is falsy in Python) and to `now + timedelta(minutes=15)` otherwise, and
signs with the module-level `SECRET_KEY` and `ALGORITHM`. -/
def create_access_token (data : Option TokenClaims) (expires_delta : Option Int)
    (now : Int) : JwtToken :=
  let to_encode : TokenClaims :=
    match data with
    | some d => d
    | none => {}
  let expire : Int :=
    match expires_delta with
    | some d => if d ≠ 0 then now + d else now + 15 * 60
    | none => now + 15 * 60
  jwt_encode { sub := to_encode.sub, scopes := to_encode.scopes, exp := some expire }
    SECRET_KEY ALGORITHM

/-- `app/errors.py` `ErrorType`: the machine-readable error taxonomy. -/
inductive ErrorType where
  | database
  | invalid_request
  | unauthorized
  | not_found
deriving DecidableEq, Repr

/-- `app/errors.py` `Error`: the structured error object.  `input`, `loc` and
`ctx` hold arbitrary JSON in the source; only string/list payloads occur in the
embedded call sites. -/
structure ErrorObj where
  type : Option ErrorType := none
  msg : Option String := none
  input : Option String := none
  loc : Option (List String) := none
  ctx : Option String := none
deriving DecidableEq, Repr

/-- `Error.__init__`: when `loc` is unset (falsy), it defaults to the call-site
identity `[filename, function]` captured from the stack. -/
def mkError (callsite : List String) (e : ErrorObj) : ErrorObj :=
  if e.loc = none ∨ e.loc = some [] then { e with loc := some callsite } else e

/-- The `detail` payload of a FastAPI `HTTPException` as this code base uses
it: either a list of encoded `Error` objects or a bare string. -/
inductive Detail where
  | structured (errs : List ErrorObj)
  | bare (msg : String)
deriving DecidableEq, Repr

/-- Model of `fastapi.HTTPException`. -/
structure HTTPException where
  status_code : Nat
  detail : Detail
  headers : List (String × String) := []
deriving DecidableEq, Repr

/-- An exception escaping one of the embedded request handlers: either a
FastAPI `HTTPException` or an uncaught library exception. -/
inductive Exc where
  | http (e : HTTPException)
  | py (e : PyError)
deriving DecidableEq, Repr

/-- `app/models.py` `User` (the table model): id, profile fields, `status`
(default `"active"`), nullable `scopes` and nullable `hashed_password`.  The
free-form `data` JSON column is modelled as an optional string. -/
structure User where
  id : String
  name : Option String := none
  email : Option String := none
  status : String := "active"
  data : Option String := none
  scopes : Option (List String) := none
  hashed_password : Option String := none
deriving DecidableEq, Repr

/-- The user lookup of the database session: `.error` models a storage/transport
failure raised by the driver, `.ok none` models "no such row". -/
def Session : Type :=
  String → Except Unit (Option User)

/-- `app/config.py` `Settings`, restricted to the fields the auth core reads.
`ACCESS_TOKEN_SECRET_KEY` defaults to `secrets.token_urlsafe(32)` — a value
drawn at process start, modelled as an explicit field with no default. -/
structure Settings where
  ACCESS_TOKEN_SECRET_KEY : String
  ACCESS_TOKEN_ALGORITHM : String := "HS256"
  ACCESS_TOKEN_EXPIRE_MINUTES : Int := 60 * 24
  SUPERUSER : String := "admin"
  SUPERUSER_PASSWORD : String := "admin"
deriving DecidableEq, Repr

/-- `app/routers/users.py` `get_user`: the 500 response raised when the
session lookup itself fails. -/
def database_exception : HTTPException :=
  { status_code := 500,
    detail := .structured [mkError ["app/routers/users.py", "get_user"]
      { type := some .database, msg := some "unable to validate credentials" }] }

/-- `app/routers/users.py` `get_user`: looks the user up by primary key,
converting a storage failure into the 500 `database_exception` and an absent
row into `none`. -/
def get_user (id : String) (session : Session) : Except HTTPException (Option User) :=
  match session id with
  | .error _ => .error database_exception
  | .ok none => .ok none
  | .ok (some user) => .ok (some user)

/-- The FastAPI `SecurityScopes` type: the scopes required of the current dependency,
aggregated over the whole dependency chain. -/
structure SecurityScopes where
  scopes : List String
deriving DecidableEq, Repr

/-- `SecurityScopes.scope_str`: the scopes joined by single spaces. -/
def SecurityScopes.scope_str (s : SecurityScopes) : String :=
  " ".intercalate s.scopes

/-- `app/routers/users.py` `get_current_user`: the 401 response used for every
credential failure.  When the endpoint required scopes, the challenge header
names them. -/
def gcu_credentials_exception (security_scopes : SecurityScopes) : HTTPException :=
  let base : HTTPException :=
    { status_code := 401,
      detail := .structured [mkError ["app/routers/users.py", "get_current_user"]
        { type := some .unauthorized, msg := some "unable to validate credentials" }],
      headers := [("WWW-Authenticate", "Bearer")] }
  if security_scopes.scopes ≠ [] then
    { base with headers :=
        [("WWW-Authenticate", "Bearer scope=\"" ++ security_scopes.scope_str ++ "\"")] }
  else base

/-- `app/routers/users.py` `get_current_user`: decodes the bearer token with
`settings.ACCESS_TOKEN_SECRET_KEY` / `settings.ACCESS_TOKEN_ALGORITHM`,
requires a `sub` claim, resolves the principal, and, unless the live principal
holds `superuser`, requires every endpoint scope to appear in the embedded
scopes of the token — mutating the `detail` of the 401 to the bare string
`"insufficent permissions"` on the first missing scope. -/
def get_current_user (token : JwtToken) (security_scopes : SecurityScopes)
    (session : Session) (stg : Settings) (now : Int) : Except HTTPException User :=
  let credentials_exception := gcu_credentials_exception security_scopes
  match jwt_decode token stg.ACCESS_TOKEN_SECRET_KEY [stg.ACCESS_TOKEN_ALGORITHM] now with
  | .error _ => .error credentials_exception
  | .ok payload =>
    match payload.sub with
    | none => .error credentials_exception
    | some user_id =>
      let token_scopes : List String := payload.scopes.getD []
      match get_user user_id session with
      | .error e => .error e
      | .ok none => .error credentials_exception
      | .ok (some user) =>
        if "superuser" ∈ user.scopes.getD [] then .ok user
        else
          match security_scopes.scopes.find? (fun s => decide (s ∉ token_scopes)) with
          | some _ =>
            .error { credentials_exception with detail := .bare "insufficent permissions" }
          | none => .ok user

/-- `app/routers/users.py` `authenticate_user`: resolves the principal and
verifies the password against `user.hashed_password or ""`.  A 500 from the
lookup and a `ValueError` from `bcrypt.checkpw` both propagate. -/
def authenticate_user (user_id password : String) (session : Session) :
    Except Exc (Option User) :=
  match get_user user_id session with
  | .error e => .error (.http e)
  | .ok none => .ok none
  | .ok (some user) =>
    match verify_password password (user.hashed_password.getD "") with
    | .error e => .error (.py e)
    | .ok false => .ok none
    | .ok true => .ok (some user)

/-- `app/routers/users.py` `get_current_active_user` (the `GET /user` handler
and the inner dependency of `UserSecurity`): FastAPI aggregates security
scopes down the dependency chain, so the `SecurityScopes` received by
`get_current_user` are the scopes of the outer dependant followed by the
`["user:read"]` this dependency itself requests; the resolved principal is
then rejected with a fresh 401 unless its `status` equals `"active"`. -/
def get_current_active_user (parent_scopes : List String) (token : JwtToken)
    (session : Session) (stg : Settings) (now : Int) : Except HTTPException User :=
  let credentials_exception : HTTPException :=
    { status_code := 401,
      detail := .structured [mkError ["app/routers/users.py", "get_current_active_user"]
        { type := some .unauthorized, msg := some "unable to validate credentials" }],
      headers := [("WWW-Authenticate", "Bearer")] }
  match get_current_user token ⟨parent_scopes ++ ["user:read"]⟩ session stg now with
  | .error e => .error e
  | .ok current_user =>
    if current_user.status ≠ "active" then .error credentials_exception
    else .ok current_user

/-- `app/routers/users.py` `UserSecurity`: the guard factory every `/resources`
endpoint (and `PATCH /user`) uses — `Security(get_current_active_user, scopes)`. -/
def UserSecurity (scopes : List String) (token : JwtToken) (session : Session)
    (stg : Settings) (now : Int) : Except HTTPException User :=
  get_current_active_user scopes token session stg now

/-- `app/routers/resources.py` `get_resources`: its guard dependency,
`UserSecurity(scopes=["resources:read"])`. -/
def get_resources_guard (token : JwtToken) (session : Session) (stg : Settings)
    (now : Int) : Except HTTPException User :=
  UserSecurity ["resources:read"] token session stg now

/-- `app/auth.py` `Token`: the login response model.  The serialized JWT string
is represented by the symbolic token itself. -/
structure Token where
  access_token : JwtToken
  token_type : String
deriving DecidableEq, Repr

/-- `app/routers/login.py` `login_access_token`: the single 401 raised both
when the principal is absent and when the password fails to verify. -/
def login_credentials_exception : HTTPException :=
  { status_code := 401,
    detail := .structured [mkError ["app/routers/login.py", "login_access_token"]
      { type := some .unauthorized, msg := some "unable to validate credentials" }],
    headers := [("WWW-Authenticate", "Bearer")] }

/-- The scope-filter loop of `login_access_token`: keep each requested scope
that the user holds, or every requested scope when the user holds `superuser`. -/
def login_scope_filter (form_scopes user_scopes : List String) : List String :=
  form_scopes.foldl
    (fun scopes scope =>
      if scope ∈ user_scopes ∨ "superuser" ∈ user_scopes then scopes ++ [scope]
      else scopes)
    []

/-- `app/routers/login.py` `login_access_token`: authenticates, filters the
requested scopes against the stored scopes of the user, and issues a token with a
30-minute expiry (`ACCESS_TOKEN_EXPIRE_MINUTES`).  Exceptions raised by
`authenticate_user` propagate. -/
def login_access_token (username password : String) (form_scopes : List String)
    (session : Session) (now : Int) : Except Exc Token :=
  match authenticate_user username password session with
  | .error e => .error e
  | .ok none => .error (.http login_credentials_exception)
  | .ok (some user) =>
    let access_token_expires : Int := ACCESS_TOKEN_EXPIRE_MINUTES * 60
    let scopes : List String := login_scope_filter form_scopes (user.scopes.getD [])
    let access_token :=
      create_access_token (some { sub := some user.id, scopes := some scopes })
        (some access_token_expires) now
    .ok { access_token := access_token, token_type := "bearer" }

/-! ### Concrete fixtures used by witnesses and counterexamples -/

/-- A 22-character salt, the length `bcrypt.gensalt()` emits. -/
def wSalt : String := "ssssssssssssssssssssss"

/-- A principal whose stored hash is a well-formed bcrypt hash of `"pw"`. -/
def alice : User :=
  { id := "alice", scopes := some ["user:read", "resources:read"],
    hashed_password := some (bcrypt_hashpw "pw" wSalt) }

/-- A store holding exactly the principal `alice`. -/
def aliceSession : Session := fun i =>
  if i = "alice" then .ok (some alice) else .ok none

/-- A store holding no principals. -/
def emptySession : Session := fun _ => .ok none

/-- A store holding `alice` with status `"inactive"` instead of `"active"`. -/
def inactiveSession : Session := fun i =>
  if i = "alice" then .ok (some { alice with status := "inactive" }) else .ok none

/-- A 43-character key: the length `secrets.token_urlsafe(32)` always returns. -/
def key43 : String := "kkkkkkkkkkkkkkkkkkkkkkkkkkkkkkkkkkkkkkkkkkk"

/-- Settings whose token secret is the 43-character `key43`. -/
def settings43 : Settings := { ACCESS_TOKEN_SECRET_KEY := key43 }

/-- A token signed with `key43`, carrying the scopes of `alice`, expiring at 1000. -/
def aliceToken : JwtToken :=
  { payload := { sub := some "alice", scopes := some ["user:read", "resources:read"],
                 exp := some 1000 },
    key := key43, alg := "HS256" }

/-- A token signed with `key43` whose embedded scope list is empty. -/
def noScopeToken : JwtToken :=
  { payload := { sub := some "alice", scopes := some [], exp := some 1000 },
    key := key43, alg := "HS256" }

/-! ### Helper lemmas -/

/-- The hard-coded signing key in `app/auth.py` is 64 characters long. -/
theorem SECRET_KEY_length : SECRET_KEY.length = 64 := rfl

/-- Unfolding lemma: a lookup miss makes `get_user` return `none`. -/
theorem get_user_of_lookup_none {id : String} {s : Session} (h : s id = .ok none) :
    get_user id s = .ok none := by
  unfold get_user
  simp only [h]

/-- Unfolding lemma: a lookup hit is returned unchanged by `get_user`. -/
theorem get_user_of_lookup_some {id : String} {s : Session} {u : User}
    (h : s id = .ok (some u)) :
    get_user id s = .ok (some u) := by
  unfold get_user
  simp only [h]

/-- Unfolding lemma: a storage failure makes `get_user` raise the 500. -/
theorem get_user_of_lookup_error {id : String} {s : Session} {x : Unit}
    (h : s id = .error x) :
    get_user id s = .error database_exception := by
  unfold get_user
  simp only [h]

/-- Inversion: the only exception `get_user` raises is `database_exception`. -/
theorem get_user_error_inv {id : String} {s : Session} {e : HTTPException}
    (h : get_user id s = .error e) :
    e = database_exception := by
  unfold get_user at h
  rcases hs : s id with e0 | ov
  · simp only [hs] at h
    exact ((Except.error.injEq _ _).mp h).symm
  · cases ov <;> simp only [hs] at h <;> simp at h

/-- Unfolding lemma: an absent principal authenticates to `none`. -/
theorem authenticate_user_of_absent (pw : String) {uid : String} {s : Session}
    (h : get_user uid s = .ok none) :
    authenticate_user uid pw s = .ok none := by
  unfold authenticate_user
  simp only [h]

/-- Unfolding lemma: a failing password verification authenticates to `none`. -/
theorem authenticate_user_of_badpw {uid pw : String} {s : Session} {u : User}
    (h : get_user uid s = .ok (some u))
    (hv : verify_password pw (u.hashed_password.getD "") = .ok false) :
    authenticate_user uid pw s = .ok none := by
  unfold authenticate_user
  simp only [h, hv]

/-- Unfolding lemma: a successful verification authenticates to the principal. -/
theorem authenticate_user_of_goodpw {uid pw : String} {s : Session} {u : User}
    (h : get_user uid s = .ok (some u))
    (hv : verify_password pw (u.hashed_password.getD "") = .ok true) :
    authenticate_user uid pw s = .ok (some u) := by
  unfold authenticate_user
  simp only [h, hv]

/-- Unfolding lemma: a lookup exception propagates through `authenticate_user`. -/
theorem authenticate_user_of_get_error (pw : String) {uid : String} {s : Session}
    {e : HTTPException} (h : get_user uid s = .error e) :
    authenticate_user uid pw s = .error (.http e) := by
  unfold authenticate_user
  simp only [h]

/-- Unfolding lemma: a library exception from the password check propagates
through `authenticate_user`. -/
theorem authenticate_user_of_pyerror {uid pw : String} {s : Session} {u : User}
    {pe : PyError} (h : get_user uid s = .ok (some u))
    (hv : verify_password pw (u.hashed_password.getD "") = .error pe) :
    authenticate_user uid pw s = .error (.py pe) := by
  unfold authenticate_user
  simp only [h, hv]

/-- Unfolding lemma: an authentication exception propagates through login. -/
theorem login_of_auth_error (R : List String) (now : Int) {un pw : String}
    {s : Session} {e : Exc} (h : authenticate_user un pw s = .error e) :
    login_access_token un pw R s now = .error e := by
  unfold login_access_token
  simp only [h]

/-- Unfolding lemma: failed authentication makes login raise the single 401. -/
theorem login_of_auth_none (R : List String) (now : Int) {un pw : String}
    {s : Session} (h : authenticate_user un pw s = .ok none) :
    login_access_token un pw R s now = .error (.http login_credentials_exception) := by
  unfold login_access_token
  simp only [h]

/-- Unfolding lemma: successful authentication makes login issue a bearer token
whose claims are the user id and the filtered scopes, with a 30-minute expiry. -/
theorem login_of_auth_some (R : List String) (now : Int) {un pw : String}
    {s : Session} {u : User} (h : authenticate_user un pw s = .ok (some u)) :
    login_access_token un pw R s now = .ok
      { access_token := create_access_token
          (some { sub := some u.id,
                  scopes := some (login_scope_filter R (u.scopes.getD [])) })
          (some (ACCESS_TOKEN_EXPIRE_MINUTES * 60)) now,
        token_type := "bearer" } := by
  unfold login_access_token
  simp only [h]

/-- The login 401 and the lookup 500 are distinct exceptions. -/
theorem login_cred_ne_database : login_credentials_exception ≠ database_exception := by
  decide

/-- The scope loop of `login_access_token`, generalized over the accumulator. -/
theorem login_scope_filter_aux (G : List String) (R acc : List String) :
    R.foldl
      (fun scopes scope =>
        if scope ∈ G ∨ "superuser" ∈ G then scopes ++ [scope] else scopes)
      acc
    = acc ++ (if "superuser" ∈ G then R else R.filter (fun s => decide (s ∈ G))) := by
  induction R generalizing acc with
  | nil => simp
  | cons a R ih =>
    rw [List.foldl_cons, ih]
    by_cases hsu : "superuser" ∈ G
    · simp [hsu]
    · by_cases ha : a ∈ G
      · simp [hsu, ha, List.filter_cons]
      · simp [hsu, ha, List.filter_cons]

/-- The scope loop of `login_access_token` computes the order-preserving
intersection with the stored scopes, or the whole request under `superuser`. -/
theorem login_scope_filter_eq (R G : List String) :
    login_scope_filter R G
      = if "superuser" ∈ G then R else R.filter (fun s => decide (s ∈ G)) := by
  unfold login_scope_filter
  simpa using login_scope_filter_aux G R []

/-- The `detail` of the guard 401 is the same structured single-error list
whether or not scopes were required (only the challenge header varies). -/
theorem gcu_cred_detail (ss : SecurityScopes) :
    (gcu_credentials_exception ss).detail
      = .structured [mkError ["app/routers/users.py", "get_current_user"]
          { type := some .unauthorized, msg := some "unable to validate credentials" }] := by
  unfold gcu_credentials_exception
  split <;> rfl

/-- A successful `jwt.decode` returns exactly the embedded payload. -/
theorem jwt_decode_ok_payload {t : JwtToken} {k : String} {a : List String}
    {n : Int} {p : JwtPayload} (h : jwt_decode t k a n = .ok p) :
    p = t.payload := by
  unfold jwt_decode at h
  split at h
  · split at h
    · split at h
      · split at h
        · exact absurd h (by simp)
        · exact ((Except.ok.injEq _ _).mp h).symm
      · exact ((Except.ok.injEq _ _).mp h).symm
    · exact absurd h (by simp)
  · exact absurd h (by simp)

/-- Characterization of guard success: the token decodes under the settings
key, its subject resolves to the returned principal, and either the live
principal holds `superuser` or every required scope is embedded in the token. -/
theorem gcu_ok_iff (token : JwtToken) (ss : SecurityScopes) (session : Session)
    (stg : Settings) (now : Int) (user : User) :
    get_current_user token ss session stg now = .ok user ↔
      jwt_decode token stg.ACCESS_TOKEN_SECRET_KEY [stg.ACCESS_TOKEN_ALGORITHM] now
          = .ok token.payload ∧
        (∃ uid, token.payload.sub = some uid ∧ get_user uid session = .ok (some user)) ∧
        ("superuser" ∈ user.scopes.getD [] ∨
          ∀ s ∈ ss.scopes, s ∈ token.payload.scopes.getD []) := by
  unfold get_current_user
  rcases hdec : jwt_decode token stg.ACCESS_TOKEN_SECRET_KEY [stg.ACCESS_TOKEN_ALGORITHM] now
    with e | p
  · simp [hdec]
  · obtain rfl : p = token.payload := jwt_decode_ok_payload hdec
    simp only
    rcases hsub : token.payload.sub with _ | uid
    · simp [hsub]
    · simp only
      rcases hget : get_user uid session with e | ov
      · simp [hget, hsub]
      · rcases ov with _ | u
        · simp [hget, hsub]
        · by_cases hsu : "superuser" ∈ u.scopes.getD []
          · simp only [if_pos hsu]
            constructor
            · intro h
              obtain rfl : u = user := by simpa using h
              exact ⟨by trivial, ⟨uid, by trivial, hget⟩, Or.inl hsu⟩
            · rintro ⟨-, ⟨uid2, huid2, hget2⟩, -⟩
              obtain rfl : uid2 = uid := by simpa using huid2.symm
              rw [hget] at hget2
              obtain rfl : u = user := by simpa using hget2
              rfl
          · simp only [if_neg hsu]
            rcases hfind : ss.scopes.find? (fun s => decide (s ∉ token.payload.scopes.getD []))
              with _ | w
            · simp only
              have hall : ∀ s ∈ ss.scopes, s ∈ token.payload.scopes.getD [] := by
                intro s hs
                have := List.find?_eq_none.mp hfind s hs
                simpa using this
              constructor
              · intro h
                obtain rfl : u = user := by simpa using h
                exact ⟨by trivial, ⟨uid, by trivial, hget⟩, Or.inr hall⟩
              · rintro ⟨-, ⟨uid2, huid2, hget2⟩, -⟩
                obtain rfl : uid2 = uid := by simpa using huid2.symm
                rw [hget] at hget2
                obtain rfl : u = user := by simpa using hget2
                rfl
            · simp only
              have hw : w ∈ ss.scopes ∧ w ∉ token.payload.scopes.getD [] := by
                refine ⟨List.mem_of_find?_eq_some hfind, ?_⟩
                have := List.find?_some hfind
                simpa using this
              constructor
              · intro h
                simp at h
              · rintro ⟨-, ⟨uid2, huid2, hget2⟩, hor⟩
                obtain rfl : uid2 = uid := by simpa using huid2.symm
                rw [hget] at hget2
                obtain rfl : u = user := by simpa using hget2
                rcases hor with hsu2 | hall
                · exact absurd hsu2 hsu
                · exact absurd (hall w hw.1) hw.2

/-- Inversion: every exception raised by `get_current_user` is the structured
401, the structured 500, or the 401 whose `detail` was mutated to the bare
missing-scope string. -/
theorem gcu_error_inv {token : JwtToken} {ss : SecurityScopes} {session : Session}
    {stg : Settings} {now : Int} {e : HTTPException}
    (h : get_current_user token ss session stg now = .error e) :
    e = gcu_credentials_exception ss ∨ e = database_exception ∨
      e = { gcu_credentials_exception ss with detail := .bare "insufficent permissions" } := by
  unfold get_current_user at h
  rcases hdec : jwt_decode token stg.ACCESS_TOKEN_SECRET_KEY [stg.ACCESS_TOKEN_ALGORITHM] now
    with e0 | p
  · rw [hdec] at h
    simp only at h
    exact Or.inl ((Except.error.injEq _ _).mp h).symm
  · rw [hdec] at h
    simp only at h
    rcases hsub : p.sub with _ | uid
    · rw [hsub] at h
      simp only at h
      exact Or.inl ((Except.error.injEq _ _).mp h).symm
    · rw [hsub] at h
      simp only at h
      rcases hget : get_user uid session with e1 | ov
      · rw [hget] at h
        simp only at h
        exact Or.inr (Or.inl (((Except.error.injEq _ _).mp h).symm.trans
          (get_user_error_inv hget)))
      · rcases ov with _ | u
        · rw [hget] at h
          simp only at h
          exact Or.inl ((Except.error.injEq _ _).mp h).symm
        · rw [hget] at h
          simp only at h
          by_cases hsu : "superuser" ∈ u.scopes.getD []
          · rw [if_pos hsu] at h
            simp at h
          · rw [if_neg hsu] at h
            rcases hfind : ss.scopes.find? (fun s => decide (s ∉ p.scopes.getD []))
              with _ | w
            · rw [hfind] at h
              simp at h
            · rw [hfind] at h
              simp only at h
              exact Or.inr (Or.inr ((Except.error.injEq _ _).mp h).symm)

/-- Inversion: success of `get_current_active_user` means the inner guard
succeeded under the aggregated scopes and the principal status is `"active"`. -/
theorem gcau_ok_inv {ps : List String} {token : JwtToken} {session : Session}
    {stg : Settings} {now : Int} {user : User}
    (h : get_current_active_user ps token session stg now = .ok user) :
    get_current_user token ⟨ps ++ ["user:read"]⟩ session stg now = .ok user ∧
      user.status = "active" := by
  unfold get_current_active_user at h
  rcases hg : get_current_user token ⟨ps ++ ["user:read"]⟩ session stg now with e | cu
  · rw [hg] at h
    simp at h
  · rw [hg] at h
    simp only at h
    by_cases hst : cu.status ≠ "active"
    · rw [if_pos hst] at h
      simp at h
    · rw [if_neg hst] at h
      obtain rfl : cu = user := by simpa using h
      exact ⟨rfl, not_ne_iff.mp hst⟩

/-! ### Claim theorems -/

/-- Claim C1 (refuted by the code; the claim states the documented intent):
for every password and every salt drawn by `bcrypt.gensalt()`, verifying the
stored value produced by `get_password_hash` does not return true — it raises
`ValueError("Invalid salt")` — because `get_password_hash` stores the Python
repr of the hash bytes (a b-prefixed quoted literal) instead of their decoding,
so the stored value never carries the `$2b$12$` header `bcrypt.checkpw`
requires. -/
theorem c1_hash_verify_roundtrip_raises (password salt : String) :
    verify_password password (get_password_hash password salt)
      = .error (.valueError "Invalid salt") := by
  unfold verify_password bcrypt_checkpw get_password_hash pyStrOfBytes
  simp [bcryptHeaderChars, List.isPrefixOf]

/-- Claim C2 (refuted by the code; the claim states the documented intent):
whenever the settings key has the 43-character length `secrets.token_urlsafe(32)`
always produces, every token issued by `create_access_token` — which signs with
the 64-character hard-coded `auth.SECRET_KEY` — fails to decode in
`get_current_user`, which rejects it with the credentials 401 instead of
recovering `sub` and `scopes`. -/
theorem c2_issued_token_never_decodes (data : Option TokenClaims)
    (delta : Option Int) (now now2 : Int) (ss : SecurityScopes) (session : Session)
    (stg : Settings) (hk : stg.ACCESS_TOKEN_SECRET_KEY.length = 43) :
    get_current_user (create_access_token data delta now) ss session stg now2
      = .error (gcu_credentials_exception ss) := by
  have hkey : SECRET_KEY ≠ stg.ACCESS_TOKEN_SECRET_KEY := by
    intro h
    rw [← h, SECRET_KEY_length] at hk
    omega
  have hdec : ∃ e, jwt_decode (create_access_token data delta now)
      stg.ACCESS_TOKEN_SECRET_KEY [stg.ACCESS_TOKEN_ALGORITHM] now2 = .error e := by
    have halgkey : (create_access_token data delta now).key = SECRET_KEY := by
      cases data <;> rfl
    unfold jwt_decode
    by_cases halg : (create_access_token data delta now).alg ∈ [stg.ACCESS_TOKEN_ALGORITHM]
    · refine ⟨.invalidSignature, ?_⟩
      rw [if_pos halg, halgkey, if_neg hkey]
    · refine ⟨.invalidAlgorithm, ?_⟩
      rw [if_neg halg]
  obtain ⟨e, he⟩ := hdec
  unfold get_current_user
  simp only [he]

/-- Witness for C2 at concrete inputs: a login-shaped token issued at time 0
is rejected by the guard under a 43-character settings key. -/
theorem c2_issued_token_never_decodes_witness :
    settings43.ACCESS_TOKEN_SECRET_KEY.length = 43 ∧
      get_current_user
          (create_access_token (some { sub := some "alice", scopes := some [] })
            (some 1800) 0) ⟨[]⟩ emptySession settings43 0
        = .error (gcu_credentials_exception ⟨[]⟩) :=
  ⟨rfl, c2_issued_token_never_decodes (some { sub := some "alice", scopes := some [] })
    (some 1800) 0 0 ⟨[]⟩ emptySession settings43 rfl⟩

/-- Claim C3 (confirmed): a successful login issues a token whose embedded
scopes are the requested scopes filtered, in request order, by membership in
the stored scopes of the principal — or the whole request when the principal
holds `superuser` — and in the non-superuser case the embedded scopes are a
subset of the stored scopes. -/
theorem c3_login_embeds_filtered_scopes (username password : String)
    (R : List String) (session : Session) (now : Int) (u : User)
    (h : authenticate_user username password session = .ok (some u)) :
    ∃ t, login_access_token username password R session now = .ok t ∧
      t.access_token.payload.scopes
          = some (if "superuser" ∈ u.scopes.getD [] then R
              else R.filter (fun s => decide (s ∈ u.scopes.getD []))) ∧
      ("superuser" ∉ u.scopes.getD [] →
        ∀ s ∈ t.access_token.payload.scopes.getD [], s ∈ u.scopes.getD []) := by
  unfold login_access_token
  rw [h]
  refine ⟨_, rfl, ?_, ?_⟩
  · simp only [create_access_token, jwt_encode]
    rw [login_scope_filter_eq]
  · intro hsu s hs
    simp only [create_access_token, jwt_encode] at hs
    rw [login_scope_filter_eq, if_neg hsu] at hs
    simp only [Option.getD_some] at hs
    exact of_decide_eq_true (List.mem_filter.mp hs).2

/-- Witness for C3 at concrete inputs: `alice` requests one held and one
unheld scope; the token embeds exactly the held one. -/
theorem c3_login_embeds_filtered_scopes_witness :
    authenticate_user "alice" "pw" aliceSession = .ok (some alice) ∧
      ∃ t, login_access_token "alice" "pw" ["resources:read", "user:write"]
            aliceSession 0 = .ok t ∧
        t.access_token.payload.scopes
            = some (if "superuser" ∈ alice.scopes.getD []
                then ["resources:read", "user:write"]
                else ["resources:read", "user:write"].filter
                  (fun s => decide (s ∈ alice.scopes.getD []))) ∧
        ("superuser" ∉ alice.scopes.getD [] →
          ∀ s ∈ t.access_token.payload.scopes.getD [], s ∈ alice.scopes.getD []) :=
  ⟨rfl, c3_login_embeds_filtered_scopes "alice" "pw" ["resources:read", "user:write"]
    aliceSession 0 alice rfl⟩

/-- Claim C4 (confirmed): once the token decodes and the subject resolves, a
principal whose live stored scopes contain `superuser` passes every scope
check regardless of the embedded scopes, while for any other principal the
guard succeeds exactly when every required scope appears in the embedded
scopes of the token, and otherwise denies with the 401 carrying the
missing-scope detail. -/
theorem c4_guard_scope_check_asymmetry (token : JwtToken) (required : SecurityScopes)
    (session : Session) (stg : Settings) (now : Int) (uid : String) (user : User)
    (hdec : jwt_decode token stg.ACCESS_TOKEN_SECRET_KEY [stg.ACCESS_TOKEN_ALGORITHM] now
      = .ok token.payload)
    (hsub : token.payload.sub = some uid)
    (hget : get_user uid session = .ok (some user)) :
    ("superuser" ∈ user.scopes.getD [] →
        get_current_user token required session stg now = .ok user) ∧
      ("superuser" ∉ user.scopes.getD [] →
        (get_current_user token required session stg now = .ok user ↔
          ∀ s ∈ required.scopes, s ∈ token.payload.scopes.getD []) ∧
        (¬ (∀ s ∈ required.scopes, s ∈ token.payload.scopes.getD []) →
          get_current_user token required session stg now
            = .error { gcu_credentials_exception required with
                detail := .bare "insufficent permissions" })) := by
  refine ⟨fun hsu => ?_, fun hsu => ⟨⟨fun h => ?_, fun hall => ?_⟩, fun hnall => ?_⟩⟩
  · exact (gcu_ok_iff token required session stg now user).mpr
      ⟨hdec, ⟨uid, hsub, hget⟩, Or.inl hsu⟩
  · obtain ⟨-, -, hor⟩ := (gcu_ok_iff token required session stg now user).mp h
    rcases hor with h1 | hall
    · exact absurd h1 hsu
    · exact hall
  · exact (gcu_ok_iff token required session stg now user).mpr
      ⟨hdec, ⟨uid, hsub, hget⟩, Or.inr hall⟩
  · unfold get_current_user
    simp only [hdec, hsub, hget]
    rw [if_neg hsu]
    rcases hfind : required.scopes.find? (fun s => decide (s ∉ token.payload.scopes.getD []))
      with _ | w
    · exfalso
      apply hnall
      intro s hs
      have := List.find?_eq_none.mp hfind s hs
      simpa using this
    · simp only [hfind]

/-- Witness for C4 at concrete inputs: the non-superuser `alice` with a
decodable token whose embedded scopes include the required one. -/
theorem c4_guard_scope_check_asymmetry_witness :
    jwt_decode aliceToken settings43.ACCESS_TOKEN_SECRET_KEY
        [settings43.ACCESS_TOKEN_ALGORITHM] 0 = .ok aliceToken.payload ∧
      aliceToken.payload.sub = some "alice" ∧
      get_user "alice" aliceSession = .ok (some alice) ∧
      (("superuser" ∈ alice.scopes.getD [] →
          get_current_user aliceToken ⟨["resources:read"]⟩ aliceSession settings43 0
            = .ok alice) ∧
        ("superuser" ∉ alice.scopes.getD [] →
          (get_current_user aliceToken ⟨["resources:read"]⟩ aliceSession settings43 0
              = .ok alice ↔
            ∀ s ∈ (SecurityScopes.mk ["resources:read"]).scopes,
              s ∈ aliceToken.payload.scopes.getD []) ∧
          (¬ (∀ s ∈ (SecurityScopes.mk ["resources:read"]).scopes,
              s ∈ aliceToken.payload.scopes.getD []) →
            get_current_user aliceToken ⟨["resources:read"]⟩ aliceSession settings43 0
              = .error { gcu_credentials_exception ⟨["resources:read"]⟩ with
                  detail := .bare "insufficent permissions" }))) :=
  ⟨rfl, rfl, rfl, c4_guard_scope_check_asymmetry aliceToken ⟨["resources:read"]⟩
    aliceSession settings43 0 "alice" alice rfl rfl rfl⟩

/-- Claim C5 (refuted by the code; the claim states the documented intent): a
principal stored with a null `hashed_password` makes `authenticate_user`
propagate `ValueError("Invalid salt")` from `bcrypt.checkpw` instead of
returning `None`, because `user.hashed_password or ""` hands `checkpw` an
empty — hence malformed — hash. -/
theorem c5_authenticate_null_hash_raises :
    authenticate_user "victim" "pw"
        (fun i => if i = "victim"
          then .ok (some { id := "victim", hashed_password := none })
          else .ok none)
      = .error (.py (.valueError "Invalid salt")) := rfl

/-- Claim C6 counterexample: at `now = 0` with `expires_delta = None`, the
embedded expiry is 900 seconds (15 minutes), not the 30 minutes of
`ACCESS_TOKEN_EXPIRE_MINUTES` the claim asserts. -/
theorem c6_default_ttl_counterexample :
    (create_access_token (some { sub := some "admin", scopes := some [] })
        none 0).payload.exp = some 900 ∧
      (create_access_token (some { sub := some "admin", scopes := some [] })
          none 0).payload.exp ≠ some (0 + ACCESS_TOKEN_EXPIRE_MINUTES * 60) := by
  constructor
  · rfl
  · decide

/-- Claim C6 as amended: when `create_access_token` is called with
`expires_delta` unspecified, the embedded absolute expiry equals
`now + 15 minutes` — the fallback hard-coded in the function body — not
`now + 30 minutes`. -/
theorem c6_default_ttl_fifteen_minutes (data : Option TokenClaims) (now : Int) :
    (create_access_token data none now).payload.exp = some (now + 15 * 60) := by
  cases data <;> rfl

/-- Claim C7 counterexample: a request by the non-superuser `alice` with a
token embedding no scopes against a guard requiring `resources:read` is denied
with a `detail` that is the bare string `"insufficent permissions"`, not a
structured error list. -/
theorem c7_missing_scope_bare_detail_counterexample :
    get_current_user noScopeToken ⟨["resources:read"]⟩ aliceSession settings43 0
        = .error { gcu_credentials_exception ⟨["resources:read"]⟩ with
            detail := .bare "insufficent permissions" } ∧
      ¬ ∃ errs, Detail.bare "insufficent permissions" = Detail.structured errs := by
  refine ⟨rfl, ?_⟩
  rintro ⟨errs, h⟩
  exact Detail.noConfusion h

/-- Claim C7 as amended: every denial emitted by `get_current_user` carries
either a structured error body — a list of exactly one object — or, in the
missing-scope case alone, the bare string `"insufficent permissions"`. -/
theorem c7_denial_bodies_structured_or_bare (token : JwtToken)
    (required : SecurityScopes) (session : Session) (stg : Settings) (now : Int)
    (e : HTTPException)
    (h : get_current_user token required session stg now = .error e) :
    (∃ err, e.detail = .structured [err]) ∨ e.detail = .bare "insufficent permissions" := by
  rcases gcu_error_inv h with rfl | rfl | rfl
  · exact Or.inl ⟨_, gcu_cred_detail required⟩
  · exact Or.inl ⟨_, rfl⟩
  · exact Or.inr rfl

/-- Witness for C7 as amended at concrete inputs: the denial for an unknown
subject carries a structured single-error body. -/
theorem c7_denial_bodies_structured_or_bare_witness :
    get_current_user aliceToken ⟨[]⟩ emptySession settings43 0
        = .error (gcu_credentials_exception ⟨[]⟩) ∧
      ((∃ err, (gcu_credentials_exception ⟨[]⟩).detail = .structured [err]) ∨
        (gcu_credentials_exception ⟨[]⟩).detail = .bare "insufficent permissions") :=
  ⟨rfl, c7_denial_bodies_structured_or_bare aliceToken ⟨[]⟩ emptySession settings43 0
    (gcu_credentials_exception ⟨[]⟩) rfl⟩

/-- Claim C8 (confirmed): the login rejection produced when no principal with
the submitted id exists is the very same `HTTPException` — status 401, body and
headers included — as the rejection produced when the principal exists but the
password verification returns false. -/
theorem c8_login_rejection_noninterference (username password : String)
    (R : List String) (now : Int) (s1 s2 : Session) (u : User)
    (h1 : get_user username s1 = .ok none)
    (h2 : get_user username s2 = .ok (some u))
    (hv : verify_password password (u.hashed_password.getD "") = .ok false) :
    login_access_token username password R s1 now
        = login_access_token username password R s2 now ∧
      login_access_token username password R s1 now
        = .error (.http login_credentials_exception) := by
  have e1 := login_of_auth_none R now (authenticate_user_of_absent password h1)
  have e2 := login_of_auth_none R now (authenticate_user_of_badpw h2 hv)
  exact ⟨e1.trans e2.symm, e1⟩

/-- Witness for C8 at concrete inputs: an unknown user and a wrong password
against the stored `alice` produce the identical 401. -/
theorem c8_login_rejection_noninterference_witness :
    get_user "alice" emptySession = .ok none ∧
      get_user "alice" aliceSession = .ok (some alice) ∧
      verify_password "wrong" (alice.hashed_password.getD "") = .ok false ∧
      (login_access_token "alice" "wrong" ["user:read"] emptySession 0
          = login_access_token "alice" "wrong" ["user:read"] aliceSession 0 ∧
        login_access_token "alice" "wrong" ["user:read"] emptySession 0
          = .error (.http login_credentials_exception)) :=
  ⟨rfl, rfl, rfl, c8_login_rejection_noninterference "alice" "wrong" ["user:read"] 0
    emptySession aliceSession alice rfl rfl rfl⟩

/-- Claim C9 (confirmed): success of the `UserSecurity` guard — the dependency
of every `/resources` endpoint — implies the principal status is `"active"`,
and, for a principal not holding `superuser`, that the token embeds
`user:read` (aggregated from `get_current_active_user`) on top of every scope
the endpoint itself requires. -/
theorem c9_resources_guard_extra_requirements (endpoint_scopes : List String)
    (token : JwtToken) (session : Session) (stg : Settings) (now : Int) (user : User)
    (h : UserSecurity endpoint_scopes token session stg now = .ok user) :
    user.status = "active" ∧
      ("superuser" ∉ user.scopes.getD [] →
        "user:read" ∈ token.payload.scopes.getD [] ∧
        ∀ s ∈ endpoint_scopes, s ∈ token.payload.scopes.getD []) := by
  obtain ⟨hgcu, hstatus⟩ := gcau_ok_inv h
  refine ⟨hstatus, fun hsu => ?_⟩
  obtain ⟨-, -, hor⟩ :=
    (gcu_ok_iff token ⟨endpoint_scopes ++ ["user:read"]⟩ session stg now user).mp hgcu
  rcases hor with h1 | hall
  · exact absurd h1 hsu
  · exact ⟨hall _ (by simp), fun s hs => hall s (by simp [hs])⟩

/-- Witness for C9 at concrete inputs: the guard of `GET /resources` admits
`alice`, whose token embeds both `user:read` and `resources:read`. -/
theorem c9_resources_guard_extra_requirements_witness :
    UserSecurity ["resources:read"] aliceToken aliceSession settings43 0 = .ok alice ∧
      (alice.status = "active" ∧
        ("superuser" ∉ alice.scopes.getD [] →
          "user:read" ∈ aliceToken.payload.scopes.getD [] ∧
          ∀ s ∈ ["resources:read"], s ∈ aliceToken.payload.scopes.getD [])) :=
  ⟨rfl, c9_resources_guard_extra_requirements ["resources:read"] aliceToken
    aliceSession settings43 0 alice rfl⟩

/-- Claim C10 (confirmed): the login endpoint never consults the principal
status — two stores that differ only in the status field of the stored
principal produce identical login responses, a correct password yields a token
whatever the status, and the login 401 occurs exactly when the lookup returns
no user or the password verification returns false. -/
theorem c10_login_ignores_status (username password : String) (R : List String)
    (now : Int) (s1 s2 : Session) (u : User) (st : String)
    (h1 : s1 username = .ok (some u))
    (h2 : s2 username = .ok (some { u with status := st }))
    (hv : verify_password password (u.hashed_password.getD "") = .ok true) :
    login_access_token username password R s1 now
        = login_access_token username password R s2 now ∧
      (∃ t, login_access_token username password R s1 now = .ok t) ∧
      (∀ s : Session,
        login_access_token username password R s now
            = .error (.http login_credentials_exception) ↔
          (s username = .ok none ∨
            ∃ v, s username = .ok (some v) ∧
              verify_password password (v.hashed_password.getD "") = .ok false)) := by
  have e1 := login_of_auth_some R now
    (authenticate_user_of_goodpw (get_user_of_lookup_some h1) hv)
  have e2 := login_of_auth_some R now
    (authenticate_user_of_goodpw (get_user_of_lookup_some h2) hv)
  refine ⟨?_, ⟨_, e1⟩, ?_⟩
  · rw [e1, e2]
  · intro s
    constructor
    · intro hlogin
      rcases hs : s username with x | ov
      · exfalso
        have := (login_of_auth_error R now
          (authenticate_user_of_get_error password
            (get_user_of_lookup_error hs))).symm.trans hlogin
        have hde : database_exception = login_credentials_exception := by
          simpa using this
        exact login_cred_ne_database hde.symm
      · rcases ov with _ | v
        · exact Or.inl rfl
        · rcases hv2 : verify_password password (v.hashed_password.getD "") with pe | b
          · exfalso
            have := (login_of_auth_error R now
              (authenticate_user_of_pyerror (get_user_of_lookup_some hs) hv2)).symm.trans
              hlogin
            simp at this
          · cases b
            · exact Or.inr ⟨v, rfl, hv2⟩
            · exfalso
              have := (login_of_auth_some R now
                (authenticate_user_of_goodpw (get_user_of_lookup_some hs) hv2)).symm.trans
                hlogin
              simp at this
    · intro hcase
      rcases hcase with hnone | ⟨v, hsome, hvf⟩
      · exact login_of_auth_none R now
          (authenticate_user_of_absent password (get_user_of_lookup_none hnone))
      · exact login_of_auth_none R now
          (authenticate_user_of_badpw (get_user_of_lookup_some hsome) hvf)

/-- Witness for C10 at concrete inputs: `alice` and her inactive copy obtain
the same successful login response. -/
theorem c10_login_ignores_status_witness :
    aliceSession "alice" = .ok (some alice) ∧
      inactiveSession "alice" = .ok (some { alice with status := "inactive" }) ∧
      verify_password "pw" (alice.hashed_password.getD "") = .ok true ∧
      (login_access_token "alice" "pw" ["resources:read"] aliceSession 0
          = login_access_token "alice" "pw" ["resources:read"] inactiveSession 0) ∧
      (∃ t, login_access_token "alice" "pw" ["resources:read"] aliceSession 0 = .ok t) :=
  ⟨rfl, rfl, rfl,
    (c10_login_ignores_status "alice" "pw" ["resources:read"] 0 aliceSession
      inactiveSession alice "inactive" rfl rfl rfl).1,
    (c10_login_ignores_status "alice" "pw" ["resources:read"] 0 aliceSession
      inactiveSession alice "inactive" rfl rfl rfl).2.1⟩

end Apipy
